import Mathlib

/-!
Verification of the membership-transition classifier and dispatch loop of
the channel unsubscribe-ban bot (source: `src/bot.py`).

The embedding follows the source closely:

* `ChatMemberStatus`, `TgUser`, `ChatMember`, `Chat`, `ChatMemberUpdated`
  and `Update` mirror the shapes the handler reads from the update object.
* `track_channel_member` mirrors the handler of the same name: it decodes
  `update.my_chat_member or update.chat_member`, filters on chat id and the
  bot flag, computes the `unsubscribed` test, issues the fallible ban call,
  and logs.  Side effects are collected as an explicit `List Effect`.
* The outbound ban call and the possibility of an unexpected runtime
  exception inside the handler body are the only non-pure parts of the
  source; both are supplied by an `Env` record (the ban call as an
  `Except`-returning function, an unexpected exception as a fault oracle).
* `loadConfig` mirrors the module-level configuration block (lines 37-46),
  with Python truthiness of the environment strings and `int()` parsing
  made explicit (`pythonInt`, ASCII digits).
-/

namespace BlockerBot

/-- The member statuses used by the handler, from
`telegram.constants.ChatMemberStatus`. -/
inductive ChatMemberStatus where
  | owner
  | administrator
  | member
  | restricted
  | left
  | kicked
deriving DecidableEq, BEq, Repr

/-- The fields of a Telegram user that the handler reads: `user.id` and
`user.is_bot` (display name and username only appear inside log text). -/
structure TgUser where
  id : Int
  is_bot : Bool
deriving DecidableEq, Repr

/-- One side of a membership transition: `status` and `user`. -/
structure ChatMember where
  status : ChatMemberStatus
  user : TgUser
deriving DecidableEq, Repr

/-- The chat the event occurred in; the handler reads only `chat.id`. -/
structure Chat where
  id : Int
deriving DecidableEq, Repr

/-- The `ChatMemberUpdated` record the handler destructures:
`result.chat`, `result.old_chat_member`, `result.new_chat_member`. -/
structure ChatMemberUpdated where
  chat : Chat
  old_chat_member : ChatMember
  new_chat_member : ChatMember
deriving DecidableEq, Repr

/-- The slice of a Telegram `Update` the handler reads: the two optional
membership-change records. -/
structure Update where
  my_chat_member : Option ChatMemberUpdated
  chat_member : Option ChatMemberUpdated
deriving DecidableEq, Repr

/-- Observable side effects of one invocation of the handler: the outbound
ban command and the four kinds of log record the handler can emit. -/
inductive Effect where
  | banChatMember (chat_id : Int) (user_id : Int)
  | logBanSuccess (user_id : Int) (old_status new_status : ChatMemberStatus)
  | logBanFailure (user_id : Int)
  | logStatusChange (user_id : Int) (old_status new_status : ChatMemberStatus)
  | logHandlerFault
deriving DecidableEq, Repr

/-- The handler environment.  `ban_chat_member` models the fallible
outbound call `context.bot.ban_chat_member(chat_id, user_id)`.  `fault`
models an unexpected runtime exception raised while handling the given
update (the `except` on line 114 of the source); in normal operation it is
`none` for every update. -/
structure Env where
  ban_chat_member : Int → Int → Except String Unit
  fault : Update → Option String

/-- Line 64 of the source: `result = update.my_chat_member or
update.chat_member`. -/
def decodeResult (u : Update) : Option ChatMemberUpdated :=
  Option.orElse u.my_chat_member (fun _ => u.chat_member)

/-- Lines 83-86 of the source: `old_status in [MEMBER, ADMINISTRATOR,
OWNER] and new_status in [LEFT, KICKED]`. -/
def unsubscribedCheck (old_status new_status : ChatMemberStatus) : Bool :=
  [ChatMemberStatus.member, ChatMemberStatus.administrator,
    ChatMemberStatus.owner].contains old_status
  && [ChatMemberStatus.left, ChatMemberStatus.kicked].contains new_status

/-- The body of the handler after decoding (lines 66-112): the chat-id
filter, the bot filter, the ban branch with its inner `try/except`, and
the status-change log branch.  Returns the emitted effects in order. -/
def handleResult (CHANNEL_ID : Int) (env : Env) :
    Option ChatMemberUpdated → List Effect
  | none => []
  | some result =>
    if result.chat.id ≠ CHANNEL_ID then []
    else if result.new_chat_member.user.is_bot then []
    else if unsubscribedCheck result.old_chat_member.status
        result.new_chat_member.status then
      match env.ban_chat_member CHANNEL_ID result.new_chat_member.user.id with
      | Except.ok _ =>
          [Effect.banChatMember CHANNEL_ID result.new_chat_member.user.id,
           Effect.logBanSuccess result.new_chat_member.user.id
             result.old_chat_member.status result.new_chat_member.status]
      | Except.error _ =>
          [Effect.banChatMember CHANNEL_ID result.new_chat_member.user.id,
           Effect.logBanFailure result.new_chat_member.user.id]
    else if result.old_chat_member.status ≠ result.new_chat_member.status then
      [Effect.logStatusChange result.new_chat_member.user.id
        result.old_chat_member.status result.new_chat_member.status]
    else []

/-- The handler body as a fallible computation: an unexpected exception
(the fault oracle) aborts it, otherwise it runs `decodeResult` then
`handleResult`. -/
def trackBody (CHANNEL_ID : Int) (env : Env) (u : Update) :
    Except String (List Effect) :=
  match env.fault u with
  | some e => Except.error e
  | none => Except.ok (handleResult CHANNEL_ID env (decodeResult u))

/-- The full handler `track_channel_member` (lines 57-115): the body
wrapped in the outer `try/except`, which converts any escaped exception
into one error-log record.  It is a total function: no error propagates to
the caller. -/
def track_channel_member (CHANNEL_ID : Int) (env : Env) (u : Update) :
    List Effect :=
  match trackBody CHANNEL_ID env u with
  | Except.ok effs => effs
  | Except.error _ => [Effect.logHandlerFault]

/-- The dispatch loop: deliveries are handled one at a time, each through
`track_channel_member`, and the stream of effects is their concatenation. -/
def dispatchLoop (CHANNEL_ID : Int) (env : Env) : List Update → List Effect
  | [] => []
  | u :: us =>
      track_channel_member CHANNEL_ID env u ++ dispatchLoop CHANNEL_ID env us

/-- The classifier decision of the specification:
`Ignore`, `Ban(userId)` or `LogOnly(oldStatus, newStatus)`. -/
inductive Decision where
  | Ignore
  | Ban (userId : Int)
  | LogOnly (oldStatus newStatus : ChatMemberStatus)
deriving DecidableEq, Repr

/-- The decision taken by the handler branch structure for a decoded
record: the chat-id filter, the bot filter, the `unsubscribed` test, and
the status-change test, in the order of the source. -/
def classifyResult (CHANNEL_ID : Int) :
    Option ChatMemberUpdated → Decision
  | none => Decision.Ignore
  | some result =>
    if result.chat.id ≠ CHANNEL_ID then Decision.Ignore
    else if result.new_chat_member.user.is_bot then Decision.Ignore
    else if unsubscribedCheck result.old_chat_member.status
        result.new_chat_member.status then
      Decision.Ban result.new_chat_member.user.id
    else if result.old_chat_member.status ≠ result.new_chat_member.status then
      Decision.LogOnly result.old_chat_member.status
        result.new_chat_member.status
    else Decision.Ignore

/-- The classifier of one update: decode, then classify the record. -/
def classify (CHANNEL_ID : Int) (u : Update) : Decision :=
  classifyResult CHANNEL_ID (decodeResult u)

/-- Recognizes the outbound ban command among the effects. -/
def isBanCommand : Effect → Bool
  | Effect.banChatMember _ _ => true
  | _ => false

/-- Number of outbound ban commands in an effect list. -/
def countBanCommands (effs : List Effect) : Nat :=
  (effs.filter isBanCommand).length

/-- Recognizes a log record (every effect other than the ban command is
one log line). -/
def isLogRecord (e : Effect) : Bool :=
  !(isBanCommand e)

/-- Number of log records in an effect list. -/
def countLogRecords (effs : List Effect) : Nat :=
  (effs.filter isLogRecord).length

/-- Recognizes the ban-failure (`BanCommandFailed`-class) log record. -/
def isBanFailureLog : Effect → Bool
  | Effect.logBanFailure _ => true
  | _ => false

/-- Number of ban-failure log records in an effect list. -/
def countBanFailureLogs (effs : List Effect) : Nat :=
  (effs.filter isBanFailureLog).length

/-! ### Startup configuration (lines 37-46 of the source) -/

/-- The two fatal configuration errors the module raises before the
dispatch loop can start. -/
inductive ConfigurationError where
  | missingTokenOrChannelId
  | channelIdNotANumber
deriving DecidableEq, Repr

/-- Digits of a Python `int()` literal after the first digit: a digit, or
one underscore followed by a digit (ASCII model). -/
def pyDigitsAux : List Char → Nat → Option Nat
  | [], acc => some acc
  | '_' :: c :: rest, acc =>
      if c.isDigit then pyDigitsAux rest (acc * 10 + (c.toNat - 48)) else none
  | c :: rest, acc =>
      if c.isDigit then pyDigitsAux rest (acc * 10 + (c.toNat - 48)) else none

/-- An unsigned Python `int()` body: at least one digit, underscores only
between digits. -/
def pyParseNat : List Char → Option Nat
  | [] => none
  | c :: rest => if c.isDigit then pyDigitsAux rest (c.toNat - 48) else none

/-- Python `int(s)` for base 10 (ASCII model): surrounding whitespace is
stripped, then an optional sign, then digits with optional single
underscores between them. -/
def pythonInt (s : String) : Option Int :=
  let cs :=
    ((s.toList.dropWhile Char.isWhitespace).reverse.dropWhile
      Char.isWhitespace).reverse
  match cs with
  | '+' :: rest => (pyParseNat rest).map Int.ofNat
  | '-' :: rest => (pyParseNat rest).map (fun n => -(Int.ofNat n))
  | rest => (pyParseNat rest).map Int.ofNat

/-- The module-level configuration block: `os.getenv` yields `none` when a
variable is unset; `not BOT_TOKEN or not CHANNEL_ID` is Python truthiness
(unset or empty string); then `int(CHANNEL_ID)`.  A returned value means
the process proceeds toward the dispatch loop; an error means the raise on
line 41 or 46 fires first. -/
def loadConfig (BOT_TOKEN CHANNEL_ID : Option String) :
    Except ConfigurationError Int :=
  if BOT_TOKEN.getD "" = "" || CHANNEL_ID.getD "" = "" then
    Except.error ConfigurationError.missingTokenOrChannelId
  else
    match pythonInt (CHANNEL_ID.getD "") with
    | some n => Except.ok n
    | none => Except.error ConfigurationError.channelIdNotANumber

/-- Whether startup reaches the dispatch loop for the given environment
variables. -/
def startupSucceeds (BOT_TOKEN CHANNEL_ID : Option String) : Bool :=
  match loadConfig BOT_TOKEN CHANNEL_ID with
  | Except.ok _ => true
  | Except.error _ => false

/-! ### Concrete sample data used by the witnesses -/

/-- Environment where the ban call succeeds and no unexpected exception
occurs. -/
def envOK : Env :=
  { ban_chat_member := fun _ _ => Except.ok ()
  , fault := fun _ => none }

/-- Environment where the ban call fails and no unexpected exception
occurs. -/
def envBanFail : Env :=
  { ban_chat_member := fun _ _ => Except.error "boom"
  , fault := fun _ => none }

/-- Environment where every update handling raises an unexpected
exception. -/
def envFault : Env :=
  { ban_chat_member := fun _ _ => Except.ok ()
  , fault := fun _ => some "boom" }

/-- A human subscriber. -/
def uHuman : TgUser := { id := 42, is_bot := false }

/-- A bot account. -/
def uBot : TgUser := { id := 77, is_bot := true }

/-- Membership record: human, member to left, in chat -100. -/
def rML : ChatMemberUpdated :=
  { chat := { id := -100 }
  , old_chat_member := { status := ChatMemberStatus.member, user := uHuman }
  , new_chat_member := { status := ChatMemberStatus.left, user := uHuman } }

/-- Membership record: bot account, member to kicked, in chat -100. -/
def rBotMK : ChatMemberUpdated :=
  { chat := { id := -100 }
  , old_chat_member := { status := ChatMemberStatus.member, user := uBot }
  , new_chat_member := { status := ChatMemberStatus.kicked, user := uBot } }

/-- Membership record: human, restricted to left, in chat -100. -/
def rRL : ChatMemberUpdated :=
  { chat := { id := -100 }
  , old_chat_member := { status := ChatMemberStatus.restricted, user := uHuman }
  , new_chat_member := { status := ChatMemberStatus.left, user := uHuman } }

/-- Membership record: human, member to member, in chat -100. -/
def rMM : ChatMemberUpdated :=
  { chat := { id := -100 }
  , old_chat_member := { status := ChatMemberStatus.member, user := uHuman }
  , new_chat_member := { status := ChatMemberStatus.member, user := uHuman } }

/-- Update carrying `rML` in the `chat_member` slot. -/
def upML : Update := { my_chat_member := none, chat_member := some rML }

/-- Update carrying `rBotMK` in the `chat_member` slot. -/
def upBotMK : Update := { my_chat_member := none, chat_member := some rBotMK }

/-- Update carrying `rRL` in the `chat_member` slot. -/
def upRL : Update := { my_chat_member := none, chat_member := some rRL }

/-- Update carrying `rMM` in the `chat_member` slot. -/
def upMM : Update := { my_chat_member := none, chat_member := some rMM }

/-- Update carrying neither membership record. -/
def upNone : Update := { my_chat_member := none, chat_member := none }

/-- Update carrying both membership records. -/
def upBoth : Update := { my_chat_member := some rML, chat_member := some rRL }

/-! ### Helper lemmas -/

/-- The `unsubscribed` test of lines 83-86 is exactly: old status in the
Subscribed partition and new status in the Unsubscribed partition. -/
theorem unsubscribedCheck_eq_true_iff (o n : ChatMemberStatus) :
    unsubscribedCheck o n = true ↔
      ((o = ChatMemberStatus.owner ∨ o = ChatMemberStatus.administrator ∨
          o = ChatMemberStatus.member) ∧
        (n = ChatMemberStatus.left ∨ n = ChatMemberStatus.kicked)) := by
  cases o <;> cases n <;> decide

/-- A transition with equal old and new status never passes the
`unsubscribed` test (the two partitions are disjoint). -/
theorem unsubscribedCheck_self (s : ChatMemberStatus) :
    unsubscribedCheck s s = false := by
  cases s <;> rfl

/-- In the absence of an unexpected exception, the handler is the decoded
body. -/
theorem track_eq_handleResult (CHANNEL_ID : Int) (env : Env) (u : Update)
    (hf : env.fault u = none) :
    track_channel_member CHANNEL_ID env u =
      handleResult CHANNEL_ID env (decodeResult u) := by
  simp [track_channel_member, trackBody, hf]

/-! ### Claim theorems -/

/-- C1: for every event whose chat id equals the configured target, whose
user is not a bot, whose old status is in {Owner, Administrator, Member}
and whose new status is in {Left, Kicked}, the classifier decides
Ban(userId) and the handler issues exactly one ban command, against the
target channel for that user id. -/
theorem ban_on_unsubscribe (CHANNEL_ID : Int) (env : Env) (u : Update)
    (r : ChatMemberUpdated)
    (hf : env.fault u = none)
    (hr : decodeResult u = some r)
    (hc : r.chat.id = CHANNEL_ID)
    (hb : r.new_chat_member.user.is_bot = false)
    (ho : r.old_chat_member.status = ChatMemberStatus.owner ∨
          r.old_chat_member.status = ChatMemberStatus.administrator ∨
          r.old_chat_member.status = ChatMemberStatus.member)
    (hn : r.new_chat_member.status = ChatMemberStatus.left ∨
          r.new_chat_member.status = ChatMemberStatus.kicked) :
    classify CHANNEL_ID u = Decision.Ban r.new_chat_member.user.id ∧
    countBanCommands (track_channel_member CHANNEL_ID env u) = 1 ∧
    Effect.banChatMember CHANNEL_ID r.new_chat_member.user.id ∈
      track_channel_member CHANNEL_ID env u ∧
    ∀ e ∈ track_channel_member CHANNEL_ID env u, isBanCommand e = true →
      e = Effect.banChatMember CHANNEL_ID r.new_chat_member.user.id := by
  have hcheck : unsubscribedCheck r.old_chat_member.status
      r.new_chat_member.status = true :=
    (unsubscribedCheck_eq_true_iff _ _).2 ⟨ho, hn⟩
  have htrack := track_eq_handleResult CHANNEL_ID env u hf
  rw [htrack, hr]
  constructor
  · simp [classify, classifyResult, hr, hc, hb, hcheck]
  · cases hban : env.ban_chat_member CHANNEL_ID r.new_chat_member.user.id <;>
      simp [handleResult, hc, hb, hcheck, hban, countBanCommands,
        isBanCommand]

/-- C2: every event whose chat id differs from the configured target is
classified Ignore and produces no ban command and no log record,
regardless of the statuses or the bot flag. -/
theorem foreign_chat_ignored (CHANNEL_ID : Int) (env : Env) (u : Update)
    (r : ChatMemberUpdated)
    (hf : env.fault u = none)
    (hr : decodeResult u = some r)
    (hc : r.chat.id ≠ CHANNEL_ID) :
    classify CHANNEL_ID u = Decision.Ignore ∧
    track_channel_member CHANNEL_ID env u = [] := by
  have htrack := track_eq_handleResult CHANNEL_ID env u hf
  rw [htrack, hr]
  constructor
  · simp [classify, classifyResult, hr, hc]
  · simp [handleResult, hc]

/-- C3: every event whose user is a bot (with chat id equal to the target)
is classified Ignore and produces no ban command and no log record, even
for a subscribed-to-unsubscribed transition. -/
theorem bot_user_ignored (CHANNEL_ID : Int) (env : Env) (u : Update)
    (r : ChatMemberUpdated)
    (hf : env.fault u = none)
    (hr : decodeResult u = some r)
    (hc : r.chat.id = CHANNEL_ID)
    (hb : r.new_chat_member.user.is_bot = true) :
    classify CHANNEL_ID u = Decision.Ignore ∧
    track_channel_member CHANNEL_ID env u = [] := by
  have htrack := track_eq_handleResult CHANNEL_ID env u hf
  rw [htrack, hr]
  constructor
  · simp [classify, classifyResult, hr, hc, hb]
  · simp [handleResult, hc, hb]

/-- C4: when the outbound ban call fails, the failure is converted into
exactly one ban-failure log record, the handler returns normally with
exactly one (unretried) ban command issued, and the dispatch loop
continues with the subsequent updates. -/
theorem ban_failure_contained (CHANNEL_ID : Int) (env : Env) (u : Update)
    (r : ChatMemberUpdated) (us : List Update) (err : String)
    (hf : env.fault u = none)
    (hr : decodeResult u = some r)
    (hc : r.chat.id = CHANNEL_ID)
    (hb : r.new_chat_member.user.is_bot = false)
    (ho : r.old_chat_member.status = ChatMemberStatus.owner ∨
          r.old_chat_member.status = ChatMemberStatus.administrator ∨
          r.old_chat_member.status = ChatMemberStatus.member)
    (hn : r.new_chat_member.status = ChatMemberStatus.left ∨
          r.new_chat_member.status = ChatMemberStatus.kicked)
    (hban : env.ban_chat_member CHANNEL_ID r.new_chat_member.user.id =
      Except.error err) :
    track_channel_member CHANNEL_ID env u =
      [Effect.banChatMember CHANNEL_ID r.new_chat_member.user.id,
       Effect.logBanFailure r.new_chat_member.user.id] ∧
    countBanFailureLogs (track_channel_member CHANNEL_ID env u) = 1 ∧
    countBanCommands (track_channel_member CHANNEL_ID env u) = 1 ∧
    dispatchLoop CHANNEL_ID env (u :: us) =
      track_channel_member CHANNEL_ID env u ++
        dispatchLoop CHANNEL_ID env us := by
  have hcheck : unsubscribedCheck r.old_chat_member.status
      r.new_chat_member.status = true :=
    (unsubscribedCheck_eq_true_iff _ _).2 ⟨ho, hn⟩
  have htrack := track_eq_handleResult CHANNEL_ID env u hf
  refine ⟨?_, ?_, ?_, rfl⟩ <;>
    rw [htrack, hr] <;>
    simp [handleResult, hc, hb, hcheck, hban, countBanFailureLogs,
      isBanFailureLog, countBanCommands, isBanCommand]

/-- C1 witness: member to left, target chat -100, human user 42. -/
theorem ban_on_unsubscribe_witness :
    classify (-100) upML = Decision.Ban 42 ∧
    countBanCommands (track_channel_member (-100) envOK upML) = 1 ∧
    Effect.banChatMember (-100) 42 ∈ track_channel_member (-100) envOK upML ∧
    ∀ e ∈ track_channel_member (-100) envOK upML, isBanCommand e = true →
      e = Effect.banChatMember (-100) 42 :=
  ban_on_unsubscribe (-100) envOK upML rML rfl rfl rfl rfl
    (Or.inr (Or.inr rfl)) (Or.inl rfl)

/-- C2 witness: same member-to-left event against target -200 (foreign
chat -100). -/
theorem foreign_chat_ignored_witness :
    classify (-200) upML = Decision.Ignore ∧
    track_channel_member (-200) envOK upML = [] :=
  foreign_chat_ignored (-200) envOK upML rML rfl rfl (by decide)

/-- C3 witness: bot account, member to kicked, in the target chat. -/
theorem bot_user_ignored_witness :
    classify (-100) upBotMK = Decision.Ignore ∧
    track_channel_member (-100) envOK upBotMK = [] :=
  bot_user_ignored (-100) envOK upBotMK rBotMK rfl rfl rfl rfl

/-- C4 witness: member to left with a failing ban call. -/
theorem ban_failure_contained_witness :
    track_channel_member (-100) envBanFail upML =
      [Effect.banChatMember (-100) 42, Effect.logBanFailure 42] ∧
    countBanFailureLogs (track_channel_member (-100) envBanFail upML) = 1 ∧
    countBanCommands (track_channel_member (-100) envBanFail upML) = 1 ∧
    dispatchLoop (-100) envBanFail (upML :: [upMM]) =
      track_channel_member (-100) envBanFail upML ++
        dispatchLoop (-100) envBanFail [upMM] :=
  ban_failure_contained (-100) envBanFail upML rML [upMM] "boom" rfl rfl rfl
    rfl (Or.inr (Or.inr rfl)) (Or.inl rfl) rfl

/-- C5 counterexample: a notification carrying neither a my_chat_member
nor a chat_member record is dropped with no effect at all: in particular
no log record is emitted, refuting the claim that such an event is
logged. -/
theorem malformed_update_not_logged :
    track_channel_member (-100) envOK upNone = [] ∧
    countLogRecords (track_channel_member (-100) envOK upNone) = 0 := by
  constructor <;> rfl

/-- C5 amended: a notification carrying neither membership record is
dropped silently, without any log record, and the loop continues with the
next notification. -/
theorem malformed_update_dropped (CHANNEL_ID : Int) (env : Env) (u : Update)
    (us : List Update)
    (hf : env.fault u = none)
    (hm : u.my_chat_member = none)
    (hcm : u.chat_member = none) :
    track_channel_member CHANNEL_ID env u = [] ∧
    dispatchLoop CHANNEL_ID env (u :: us) = dispatchLoop CHANNEL_ID env us := by
  have htrack := track_eq_handleResult CHANNEL_ID env u hf
  have hd : decodeResult u = none := by
    simp [decodeResult, hm, hcm]
  have h1 : track_channel_member CHANNEL_ID env u = [] := by
    rw [htrack, hd, handleResult]
  exact ⟨h1, by simp [dispatchLoop, h1]⟩

/-- C5 amended witness: the all-empty notification at target -100. -/
theorem malformed_update_dropped_witness :
    track_channel_member (-100) envOK upNone = [] ∧
    dispatchLoop (-100) envOK (upNone :: [upML]) =
      dispatchLoop (-100) envOK [upML] :=
  malformed_update_dropped (-100) envOK upNone [upML] rfl rfl rfl

/-- C6 counterexample: with the credential present but equal to the empty
string and a target identifier that parses as an integer, startup still
fails, refuting the claim that a present credential plus a numeric target
suffices for startup. -/
theorem present_empty_token_rejected :
    (some "" : Option String).isSome = true ∧
    pythonInt "1" = some 1 ∧
    startupSucceeds (some "") (some "1") = false := by
  refine ⟨rfl, ?_, ?_⟩ <;> rfl

/-- C6 amended: startup reaches the dispatch loop exactly when the
credential is set to a non-empty string and the target identifier parses
as a Python integer; in every other case a ConfigurationError is raised
first. -/
theorem startup_succeeds_iff (BOT_TOKEN CHANNEL_ID : Option String) :
    startupSucceeds BOT_TOKEN CHANNEL_ID = true ↔
      (BOT_TOKEN.getD "" ≠ "" ∧
        ∃ n, pythonInt (CHANNEL_ID.getD "") = some n) := by
  unfold startupSucceeds loadConfig
  constructor
  · intro h
    by_cases ht : BOT_TOKEN.getD "" = ""
    · simp [ht] at h
    · by_cases hch : CHANNEL_ID.getD "" = ""
      · simp [ht, hch] at h
      · refine ⟨ht, ?_⟩
        cases hp : pythonInt (CHANNEL_ID.getD "") with
        | none => simp [ht, hch, hp] at h
        | some n => exact ⟨n, rfl⟩
  · rintro ⟨ht, n, hp⟩
    have hch : CHANNEL_ID.getD "" ≠ "" := by
      intro hch
      rw [hch] at hp
      exact Option.noConfusion (hp.symm.trans rfl)
    simp [ht, hch, hp]

/-- C7: an unexpected exception while handling one update is caught at the
dispatch boundary, converted into exactly one handler-error log record,
and the loop continues with the subsequent updates unchanged. -/
theorem handler_fault_contained (CHANNEL_ID : Int) (env : Env) (u : Update)
    (us : List Update) (e : String)
    (hf : env.fault u = some e) :
    track_channel_member CHANNEL_ID env u = [Effect.logHandlerFault] ∧
    countLogRecords (track_channel_member CHANNEL_ID env u) = 1 ∧
    countBanCommands (track_channel_member CHANNEL_ID env u) = 0 ∧
    dispatchLoop CHANNEL_ID env (u :: us) =
      Effect.logHandlerFault :: dispatchLoop CHANNEL_ID env us := by
  have h1 : track_channel_member CHANNEL_ID env u = [Effect.logHandlerFault] := by
    simp [track_channel_member, trackBody, hf]
  refine ⟨h1, ?_, ?_, ?_⟩ <;>
    simp [dispatchLoop, h1, countLogRecords, countBanCommands, isLogRecord,
      isBanCommand]

/-- C7 witness: a faulting environment on the member-to-left update. -/
theorem handler_fault_contained_witness :
    track_channel_member (-100) envFault upML = [Effect.logHandlerFault] ∧
    countLogRecords (track_channel_member (-100) envFault upML) = 1 ∧
    countBanCommands (track_channel_member (-100) envFault upML) = 0 ∧
    dispatchLoop (-100) envFault (upML :: [upMM]) =
      Effect.logHandlerFault :: dispatchLoop (-100) envFault [upMM] :=
  handler_fault_contained (-100) envFault upML [upMM] "boom" rfl

/-- C8: a target-channel, non-bot event with a status change that does
not match the ban rule (old status outside {Owner, Administrator, Member}
or new status outside {Left, Kicked}) is classified
LogOnly(oldStatus, newStatus): exactly one log record and no ban
command. -/
theorem other_change_logged_only (CHANNEL_ID : Int) (env : Env) (u : Update)
    (r : ChatMemberUpdated)
    (hf : env.fault u = none)
    (hr : decodeResult u = some r)
    (hc : r.chat.id = CHANNEL_ID)
    (hb : r.new_chat_member.user.is_bot = false)
    (hd : r.old_chat_member.status ≠ r.new_chat_member.status)
    (hnb : ¬(r.old_chat_member.status = ChatMemberStatus.owner ∨
             r.old_chat_member.status = ChatMemberStatus.administrator ∨
             r.old_chat_member.status = ChatMemberStatus.member) ∨
           ¬(r.new_chat_member.status = ChatMemberStatus.left ∨
             r.new_chat_member.status = ChatMemberStatus.kicked)) :
    classify CHANNEL_ID u =
      Decision.LogOnly r.old_chat_member.status r.new_chat_member.status ∧
    track_channel_member CHANNEL_ID env u =
      [Effect.logStatusChange r.new_chat_member.user.id
        r.old_chat_member.status r.new_chat_member.status] ∧
    countLogRecords (track_channel_member CHANNEL_ID env u) = 1 ∧
    countBanCommands (track_channel_member CHANNEL_ID env u) = 0 := by
  have hcheck : unsubscribedCheck r.old_chat_member.status
      r.new_chat_member.status = false := by
    cases h : unsubscribedCheck r.old_chat_member.status
        r.new_chat_member.status with
    | false => rfl
    | true =>
        exact absurd ((unsubscribedCheck_eq_true_iff _ _).1 h) (by tauto)
  have htrack := track_eq_handleResult CHANNEL_ID env u hf
  have h1 : track_channel_member CHANNEL_ID env u =
      [Effect.logStatusChange r.new_chat_member.user.id
        r.old_chat_member.status r.new_chat_member.status] := by
    rw [htrack, hr]
    simp [handleResult, hc, hb, hcheck, hd]
  refine ⟨?_, h1, ?_, ?_⟩
  · simp [classify, classifyResult, hr, hc, hb, hcheck, hd]
  · simp [h1, countLogRecords, isLogRecord, isBanCommand]
  · simp [h1, countBanCommands, isBanCommand]

/-- C8 witness: restricted to left in the target chat yields LogOnly, not
Ban. -/
theorem other_change_logged_only_witness :
    classify (-100) upRL =
      Decision.LogOnly ChatMemberStatus.restricted ChatMemberStatus.left ∧
    track_channel_member (-100) envOK upRL =
      [Effect.logStatusChange 42 ChatMemberStatus.restricted
        ChatMemberStatus.left] ∧
    countLogRecords (track_channel_member (-100) envOK upRL) = 1 ∧
    countBanCommands (track_channel_member (-100) envOK upRL) = 0 :=
  other_change_logged_only (-100) envOK upRL rRL rfl rfl rfl rfl (by decide)
    (Or.inl (by decide))

/-- C9: a target-channel, non-bot event whose old and new statuses are
equal is classified Ignore and has no observable effect: no ban command
and no log record, for every status value. -/
theorem no_change_ignored (CHANNEL_ID : Int) (env : Env) (u : Update)
    (r : ChatMemberUpdated)
    (hf : env.fault u = none)
    (hr : decodeResult u = some r)
    (hc : r.chat.id = CHANNEL_ID)
    (hb : r.new_chat_member.user.is_bot = false)
    (he : r.old_chat_member.status = r.new_chat_member.status) :
    classify CHANNEL_ID u = Decision.Ignore ∧
    track_channel_member CHANNEL_ID env u = [] := by
  have hcheck : unsubscribedCheck r.old_chat_member.status
      r.new_chat_member.status = false := by
    rw [he]
    exact unsubscribedCheck_self _
  have htrack := track_eq_handleResult CHANNEL_ID env u hf
  rw [htrack, hr]
  constructor
  · simp [classify, classifyResult, hr, hc, hb, he, unsubscribedCheck_self]
  · simp [handleResult, hc, hb, he, unsubscribedCheck_self]

/-- C9 witness: member to member in the target chat. -/
theorem no_change_ignored_witness :
    classify (-100) upMM = Decision.Ignore ∧
    track_channel_member (-100) envOK upMM = [] :=
  no_change_ignored (-100) envOK upMM rMM rfl rfl rfl rfl rfl

/-- C10: when a notification carries both a my_chat_member and a
chat_member record, the handler decodes and processes only the
my_chat_member record: the decision and the effects are those of the
my_chat_member record, independent of the chat_member record. -/
theorem my_chat_member_precedence (CHANNEL_ID : Int) (env : Env)
    (a b : ChatMemberUpdated)
    (hf : env.fault { my_chat_member := some a, chat_member := some b } =
      none) :
    decodeResult { my_chat_member := some a, chat_member := some b } =
      some a ∧
    classify CHANNEL_ID { my_chat_member := some a, chat_member := some b } =
      classifyResult CHANNEL_ID (some a) ∧
    track_channel_member CHANNEL_ID env
        { my_chat_member := some a, chat_member := some b } =
      handleResult CHANNEL_ID env (some a) := by
  refine ⟨rfl, rfl, ?_⟩
  rw [track_eq_handleResult CHANNEL_ID env _ hf]
  rfl

/-- C10 witness: both records present; only the my_chat_member one
(member to left) is processed, the chat_member one (restricted to left)
is ignored. -/
theorem my_chat_member_precedence_witness :
    decodeResult { my_chat_member := some rML, chat_member := some rRL } =
      some rML ∧
    classify (-100) { my_chat_member := some rML, chat_member := some rRL } =
      classifyResult (-100) (some rML) ∧
    track_channel_member (-100) envOK
        { my_chat_member := some rML, chat_member := some rRL } =
      handleResult (-100) envOK (some rML) :=
  my_chat_member_precedence (-100) envOK rML rRL rfl

end BlockerBot
